import Mathlib

/-
Verification of `src/crewai/agents/Third_Party_Agents/langchain_custom/agent.py`
(the `LangchainAgent` adapter class).

Shallow embedding conventions:
- External object handles (language models, callbacks, tool handlers, rate-limit
  controllers, memory stores) are modelled as opaque `Nat` identifiers.
- Outputs of external collaborators that the module merely forwards
  (`Prompts(...).task_execution()`, `prompt.partial(...)`, `llm.bind(...)`,
  `CrewAgentParser(...)`) are modelled as free constructors, so a theorem can
  state exactly which call was made with which arguments.
- External collaborators whose *result value* the module inspects or combines
  (`build_context_for_task`, `render_text_description`, `str.format`,
  `crewai_tools` import success, `CrewAITool.to_langchain`, executor `invoke`)
  are fields of an environment record `Env`; theorems quantify over all
  environments.
- Python exceptions are modelled with `Except PyErr`; Python truthiness of
  `None`/empty values is modelled explicitly (`pyStrTruthy`, `pyNatTruthy`,
  `pyListOr`).
-/

/-- Python exceptions relevant to this module: the `ModuleNotFoundError` that
`_parse_tools` guards against, the `IndexError` from `split(...)[1]`, and
arbitrary other exceptions raised by wrapped collaborators. -/
inductive PyErr where
  | moduleNotFound
  | indexError
  | external (code : Nat)
deriving DecidableEq

/-- Payload of a tool object: its `name` attribute and an opaque identity tag. -/
structure ToolData where
  name : String
  tag : Nat
deriving DecidableEq

/-- A tool value: either an instance of `crewai_tools.BaseTool` (for which
`_parse_tools` calls `.to_langchain()`) or any other tool object, which
`isinstance` rejects and which is appended unchanged. -/
inductive Tool where
  | crewai (d : ToolData)
  | langchain (d : ToolData)
deriving DecidableEq

/-- `isinstance(tool, CrewAITool)` of line 238. -/
def Tool.isCrewai : Tool → Bool
  | .crewai _ => true
  | .langchain _ => false

/-- The `.name` attribute read by `__tools_names` (line 249). -/
def Tool.name : Tool → String
  | .crewai d => d.name
  | .langchain d => d.name

/-- The i18n collaborator: `slice` maps a slice key (`"observation"`,
`"task_with_context"`, `"memory"`) to its template string. -/
structure I18n where
  slice : String → String

/-- The fields of `self.crew` that `execute_task` reads (lines 114-119). -/
structure Crew where
  memory : Bool
  short_term_memory : Nat
  long_term_memory : Nat
  entity_memory : Nat
deriving DecidableEq

/-- A task: `execute_task` only calls `task.prompt()` and forwards the task
object itself. -/
structure TaskV where
  prompt : String
deriving DecidableEq

/-- The configuration state of a `LangchainAgent` (fields declared in this
class and in `BaseAgent` that this module reads). `rpm_controller` models the
`_rpm_controller` private attribute. -/
structure LangchainAgent where
  llm : Nat
  i18n : I18n
  crew : Option Crew
  verbose : Bool
  tools : List Tool
  max_iter : Nat
  max_execution_time : Option Nat
  step_callback : Option Nat
  tools_handler : Option Nat
  function_calling_llm : Option Nat
  callbacks : Option (List Nat)
  system_template : Option String
  prompt_template : Option String
  response_template : Option String
  goal : String
  role : String
  backstory : String
  max_rpm : Option Nat
  rpm_controller : Option Nat

/-- A langchain `AgentAction`; only its `.log` attribute is read
(`format_log_to_str`, line 154). -/
structure AgentAction where
  log : String
deriving DecidableEq

/-- Result of `Prompts(...).task_execution()` and of `.partial(...)` on it
(lines 197-209), as free constructors recording the exact arguments.
`partialApplied` models the `.partial(goal=..., role=..., backstory=...)`
call. -/
inductive PromptVal where
  | taskExecution (i18n : I18n) (tools : List Tool)
      (system_template prompt_template response_template : Option String)
  | partialApplied (p : PromptVal) (goal role backstory : String)

/-- Result of `self.llm.bind(stop=stop_words)` (line 218). -/
inductive BoundLLM where
  | bound (llm : Nat) (stop : List String)

/-- The language-model handle captured by `llm.bind`. -/
def BoundLLM.llmOf : BoundLLM → Nat
  | .bound l _ => l

/-- The stop-word list captured by `llm.bind`. -/
def BoundLLM.stopOf : BoundLLM → List String
  | .bound _ s => s

/-- Result of `CrewAgentParser(agent=self)` (line 220). -/
inductive ParserVal where
  | crewAgentParser (agent : LangchainAgent)

/-- The `agent_args` dict (lines 166-173): three projection lambdas plus the
`agent_scratchpad` closure, whose behaviour is `self.format_log_to_str`. Only
the scratchpad closure computes anything, so it is the carried datum. -/
structure AgentArgsVal where
  scratchpad : List (AgentAction × String) → String

/-- The runnable pipeline `agent_args | execution_prompt | bind |
CrewAgentParser(agent=self)` (line 220), as the record of its four stages. -/
structure InnerAgent where
  args : AgentArgsVal
  prompt : PromptVal
  llm_bound : BoundLLM
  outputParser : ParserVal

/-- `RunnableAgent(runnable=inner_agent)` (line 222). -/
structure RunnableAgentV where
  runnable : InnerAgent

/-- The bound method `self._rpm_controller.check_or_wait` passed as
`request_within_rpm_limit` (lines 192-195). -/
inductive RpmCallback where
  | checkOrWait (controller : Nat)

/-- The external `CrewAgentExecutor`, as the record of the keyword arguments
this module passes to it (lines 175-195, 221-223) plus the attributes
`execute_task` assigns after construction (`task`, `tools_description`,
`tools_names`, and the reassigned `tools`, lines 128-132). Kwargs the module
omits are `none`/default. -/
structure CrewAgentExecutor where
  agent : RunnableAgentV
  llm : Nat
  i18n : I18n
  crew : Option Crew
  crew_agent : LangchainAgent
  tools : List Tool
  verbose : Bool
  original_tools : List Tool
  handle_parsing_errors : Bool
  max_iterations : Nat
  max_execution_time : Option Nat
  step_callback : Option Nat
  tools_handler : Option Nat
  function_calling_llm : Option Nat
  callbacks : Option (List Nat)
  request_within_rpm_limit : Option RpmCallback
  task : Option TaskV
  tools_description : String
  tools_names : String

/-- Behaviour of the external collaborators the module calls and whose result
values it uses. Theorems quantify over every environment. -/
structure Env where
  /-- `none`: `from crewai_tools import BaseTool` succeeds; `some e`: the
  statement raises `e` (lines 233-235). -/
  importCrewaiTools : Option PyErr
  /-- `tool.to_langchain()` (line 239); may raise. -/
  to_langchain : Tool → Except PyErr Tool
  /-- `ContextualMemory(stm, ltm, em).build_context_for_task(task, context)`
  (lines 115-120). -/
  build_context_for_task : Nat → Nat → Nat → TaskV → Option String → String
  /-- `render_text_description(parsed_tools)` (line 131). -/
  render_text_description : List Tool → String
  /-- `template.format(task=..., context=...)` (lines 110-112). -/
  fmt_task_with_context : String → String → String → String
  /-- `template.format(memory=...)` (line 122). -/
  fmt_memory : String → String → String
  /-- `executor.invoke({"input": ..., "tool_names": ..., "tools": ...})["output"]`
  (lines 134-140). -/
  invoke : CrewAgentExecutor → String → String → String → String

/-- Python truthiness of an optional string (`if context:`, line 109;
`if self.response_template:`, line 213): `None` and `""` are falsy. -/
def pyStrTruthy : Option String → Bool
  | none => false
  | some s => s ≠ ""

/-- Python truthiness of an optional integer (`if self.max_rpm:`, line 141):
`None` and `0` are falsy. -/
def pyNatTruthy : Option Nat → Bool
  | none => false
  | some n => n ≠ 0

/-- Python `xs or ys` on lists: an empty list is falsy. -/
def pyListOr (xs ys : List Tool) : List Tool :=
  if xs.isEmpty then ys else xs

/-- Python `tools or self.tools` where `tools: Optional[List]` (lines 124,
164): `None` and `[]` both fall back. -/
def pyOptListOr (o : Option (List Tool)) (d : List Tool) : List Tool :=
  match o with
  | none => d
  | some xs => pyListOr xs d

/-- `format_log_to_str` (lines 145-156): fold the intermediate steps into the
scratchpad string, each step contributing
`action.log + "\n" + observation_prefix + observation + "\n" + llm_prefix`. -/
def format_log_to_str (intermediate_steps : List (AgentAction × String))
    ( observation_prefix llm_prefix : String) : String :=
  intermediate_steps.foldl
    (fun thoughts step =>
      thoughts ++ step.1.log ++ "\n" ++ observation_prefix ++ step.2 ++ "\n" ++ llm_prefix)
    ""

/-- The loop body of `_parse_tools` (lines 237-241), with the partially built
`tools_list` made explicit: returns the accumulated list and, when
`.to_langchain()` raises, the exception at that point. -/
def parseLoop (env : Env) (acc : List Tool) : List Tool → List Tool × Option PyErr
  | [] => (acc, none)
  | t :: ts =>
    match t with
    | Tool.crewai _ =>
      match env.to_langchain t with
      | .ok t2 => parseLoop env (acc ++ [t2]) ts
      | .error e => (acc, some e)
    | Tool.langchain _ => parseLoop env (acc ++ [t]) ts

/-- `_parse_tools` (lines 230-245). The `try` block covers both the
`crewai_tools` import and the conversion loop; `except ModuleNotFoundError`
appends every tool unchanged to whatever `tools_list` already holds; any other
exception propagates. -/
def parse_tools (env : Env) (tools : List Tool) : Except PyErr (List Tool) :=
  let r : List Tool × Option PyErr :=
    match env.importCrewaiTools with
    | some e => ([], some e)
    | none => parseLoop env [] tools
  match r.2 with
  | none => .ok r.1
  | some e =>
    if e = PyErr.moduleNotFound then .ok (r.1 ++ tools) else .error e

/-- The literal `"{{ .Response }}"` of line 215. -/
def respMarker : String := "\x7b\x7b .Response \x7d\x7d"

/-- Python `str.split(sep)` for a non-empty separator, on character lists:
scan left to right, cutting at each leftmost non-overlapping occurrence of
`sep`. The `fuel` argument only makes the recursion structural (so that
concrete inputs evaluate); every call below supplies more fuel than the list
is long, so the fuel-exhausted branch is unreachable. -/
def pySplitAux (sep : List Char) : Nat → List Char → List Char → List (List Char)
  | _, [], cur => [cur.reverse]
  | 0, l, cur => [cur.reverse ++ l]
  | fuel + 1, c :: rest, cur =>
    if sep.isPrefixOf (c :: rest) then
      cur.reverse :: pySplitAux sep fuel ((c :: rest).drop sep.length) []
    else
      pySplitAux sep fuel rest (c :: cur)

/-- Python `s.split(sep)` for a non-empty `sep` (always a list of at least
one field; `"".split(sep) == [""]`). -/
def pySplit (s sep : String) : List String :=
  (pySplitAux sep.data (s.data.length + 1) s.data []).map String.mk

/-- Python `s.strip()`: remove whitespace from both ends (ASCII whitespace
suffices for the strings this module handles). -/
def pyStrip (s : String) : String :=
  String.mk (((s.data.dropWhile Char.isWhitespace).reverse.dropWhile Char.isWhitespace).reverse)

/-- The stop-word computation (lines 211-216): the observation slice, then —
when `response_template` is truthy — element `[1]` of
`response_template.split("{{ .Response }}")`, stripped; Python raises
`IndexError` when the split has no element 1. -/
def stop_words_of (i : I18n) (rt : Option String) : Except PyErr (List String) :=
  if pyStrTruthy rt then
    match (pySplit (rt.getD "") respMarker).get? 1 with
    | some s => .ok ([i.slice "observation"] ++ [pyStrip s])
    | none => .error PyErr.indexError
  else
    .ok [i.slice "observation"]

/-- `create_agent_executor` (lines 158-223). Follows the source's evaluation
order: resolve `tools or self.tools`, build `agent_args`, build
`executor_args` (which runs `_parse_tools`), add the rpm kwarg when
`self._rpm_controller` is set, build the prompts, compute the stop words
(which may raise), bind the llm, assemble the runnable and construct the
executor. Instead of mutating `self.agent_executor`, the executor is
returned. -/
def create_agent_executor (env : Env) (a : LangchainAgent)
    (toolsArg : Option (List Tool)) : Except PyErr CrewAgentExecutor := do
  let tools := pyOptListOr toolsArg a.tools
  let agent_args : AgentArgsVal :=
    { scratchpad := fun steps => format_log_to_str steps "Observation: " "" }
  let parsedTools ← parse_tools env tools
  let rpmArg : Option RpmCallback := a.rpm_controller.map RpmCallback.checkOrWait
  let prompt := PromptVal.taskExecution a.i18n tools
    a.system_template a.prompt_template a.response_template
  let execution_prompt := PromptVal.partialApplied prompt a.goal a.role a.backstory
  let stop_words ← stop_words_of a.i18n a.response_template
  let bind_result := BoundLLM.bound a.llm stop_words
  let inner_agent : InnerAgent :=
    { args := agent_args
      prompt := execution_prompt
      llm_bound := bind_result
      outputParser := ParserVal.crewAgentParser a }
  .ok
    { agent := { runnable := inner_agent }
      llm := a.llm
      i18n := a.i18n
      crew := a.crew
      crew_agent := a
      tools := parsedTools
      verbose := a.verbose
      original_tools := tools
      handle_parsing_errors := true
      max_iterations := a.max_iter
      max_execution_time := a.max_execution_time
      step_callback := a.step_callback
      tools_handler := a.tools_handler
      function_calling_llm := a.function_calling_llm
      callbacks := a.callbacks
      request_within_rpm_limit := rpmArg
      task := none
      tools_description := ""
      tools_names := "" }

/-- `", ".join([t.name for t in tools])` (`__tools_names`, lines 247-249). -/
def tools_names_of (tools : List Tool) : String :=
  String.intercalate ", " (tools.map Tool.name)

/-- The rate-limit interaction `execute_task` performs itself: the single
`self._rpm_controller.stop_rpm_counter()` call of lines 141-142. -/
inductive RpmEvent where
  | stopRpmCounter
deriving DecidableEq

/-- What a call to `execute_task` produces: the returned output string, the
executor it built and mutated, the `"input"` value passed to
`agent_executor.invoke`, and the rate-limit calls the module itself made. -/
structure ExecResult where
  output : String
  executor : CrewAgentExecutor
  input_prompt : String
  rpm_events : List RpmEvent

/-- Lines 107-112 of `execute_task`: `task.prompt()`, then the
`task_with_context` slice formatted with the prompt and context when a
truthy context is given. -/
def base_prompt (env : Env) (a : LangchainAgent) (task : TaskV)
    (context : Option String) : String :=
  let task_prompt := task.prompt
  if pyStrTruthy context then
    env.fmt_task_with_context (a.i18n.slice "task_with_context") task_prompt
      (context.getD "")
  else task_prompt

/-- Lines 114-122 of `execute_task`: when the agent's crew exists and has
memory enabled, build the contextual memory from the crew's three stores and
append the formatted `memory` slice exactly when the built context is
non-blank after stripping. -/
def memory_step (env : Env) (a : LangchainAgent) (task : TaskV)
    (context : Option String) (task_prompt : String) : String :=
  match a.crew with
  | some c =>
    if c.memory then
      let memory := env.build_context_for_task c.short_term_memory
        c.long_term_memory c.entity_memory task context
      if pyStrip memory ≠ "" then
        task_prompt ++ env.fmt_memory (a.i18n.slice "memory") memory
      else task_prompt
    else task_prompt
  | none => task_prompt

/-- `execute_task` (lines 87-143). The reset of
`tools_handler.last_used_tool` mutates an external object and is not
observable here. After building the prompt, the tools are resolved
(`tools or self.tools`), parsed (`_parse_tools(tools or [])`), the executor
is created and its `tools`, `task`, `tools_description` and `tools_names`
attributes assigned, `invoke` is called, and `stop_rpm_counter` is called
when `max_rpm` is truthy. -/
def execute_task (env : Env) (a : LangchainAgent) (task : TaskV)
    (context : Option String) (toolsArg : Option (List Tool)) :
    Except PyErr ExecResult := do
  let task_prompt := memory_step env a task context (base_prompt env a task context)
  let tools := pyOptListOr toolsArg a.tools
  let parsed_tools ← parse_tools env (pyListOr tools [])
  let ex0 ← create_agent_executor env a (some tools)
  let ex1 : CrewAgentExecutor :=
    { ex0 with
      tools := parsed_tools
      task := some task
      tools_description := env.render_text_description parsed_tools
      tools_names := tools_names_of parsed_tools }
  let result := env.invoke ex1 task_prompt ex1.tools_names ex1.tools_description
  let rpm_events := if pyNatTruthy a.max_rpm then [RpmEvent.stopRpmCounter] else []
  .ok
    { output := result
      executor := ex1
      input_prompt := task_prompt
      rpm_events := rpm_events }

/-! ### Helper lemmas and concrete instances -/

theorem pyListOr_nil (xs : List Tool) : pyListOr xs [] = xs := by
  cases xs <;> rfl

/-- The executor record that `create_agent_executor` assembles, given the
results `pt` of `_parse_tools` and `sw` of the stop-word computation. -/
def executorOf (a : LangchainAgent) (toolsArg : Option (List Tool))
    (pt : List Tool) (sw : List String) : CrewAgentExecutor :=
  { agent :=
      { runnable :=
          { args := { scratchpad := fun steps => format_log_to_str steps "Observation: " "" }
            prompt := PromptVal.partialApplied
              (PromptVal.taskExecution a.i18n (pyOptListOr toolsArg a.tools)
                a.system_template a.prompt_template a.response_template)
              a.goal a.role a.backstory
            llm_bound := BoundLLM.bound a.llm sw
            outputParser := ParserVal.crewAgentParser a } }
    llm := a.llm
    i18n := a.i18n
    crew := a.crew
    crew_agent := a
    tools := pt
    verbose := a.verbose
    original_tools := pyOptListOr toolsArg a.tools
    handle_parsing_errors := true
    max_iterations := a.max_iter
    max_execution_time := a.max_execution_time
    step_callback := a.step_callback
    tools_handler := a.tools_handler
    function_calling_llm := a.function_calling_llm
    callbacks := a.callbacks
    request_within_rpm_limit := a.rpm_controller.map RpmCallback.checkOrWait
    task := none
    tools_description := ""
    tools_names := "" }

theorem create_ok_elim (env : Env) (a : LangchainAgent)
    (toolsArg : Option (List Tool)) (ex : CrewAgentExecutor)
    (h : create_agent_executor env a toolsArg = Except.ok ex) :
    ∃ pt sw, parse_tools env (pyOptListOr toolsArg a.tools) = Except.ok pt ∧
      stop_words_of a.i18n a.response_template = Except.ok sw ∧
      ex = executorOf a toolsArg pt sw := by
  simp only [create_agent_executor] at h
  cases hp : parse_tools env (pyOptListOr toolsArg a.tools) with
  | error e => rw [hp] at h; simp [Bind.bind, Except.bind] at h
  | ok pt =>
    rw [hp] at h
    simp only [Bind.bind, Except.bind] at h
    cases hs : stop_words_of a.i18n a.response_template with
    | error e => rw [hs] at h; simp [Except.bind] at h
    | ok sw =>
      rw [hs] at h
      simp only [Except.ok.injEq] at h
      exact ⟨pt, sw, rfl, rfl, h.symm⟩

theorem create_eq_of_results (env : Env) (a : LangchainAgent)
    (toolsArg : Option (List Tool)) (pt : List Tool) (sw : List String)
    (hp : parse_tools env (pyOptListOr toolsArg a.tools) = Except.ok pt)
    (hs : stop_words_of a.i18n a.response_template = Except.ok sw) :
    create_agent_executor env a toolsArg = Except.ok (executorOf a toolsArg pt sw) := by
  simp only [create_agent_executor]
  rw [hp]
  simp only [Bind.bind, Except.bind]
  rw [hs]
  rfl

theorem create_error_elim (env : Env) (a : LangchainAgent)
    (toolsArg : Option (List Tool)) (e : PyErr)
    (hp : parse_tools env (pyOptListOr toolsArg a.tools) = Except.error e) :
    create_agent_executor env a toolsArg = Except.error e := by
  simp only [create_agent_executor]
  rw [hp]
  rfl

/-- Concrete i18n used for witnesses: each slice key is its own template. -/
def wI18n : I18n := { slice := fun s => s }

/-- A concrete non-crewai tool. -/
def wTool : Tool := Tool.langchain { name := "search", tag := 0 }

/-- A concrete crewai tool. -/
def wCrewaiTool : Tool := Tool.crewai { name := "scrape", tag := 1 }

/-- A concrete agent for witnesses. -/
def wAgent : LangchainAgent :=
  { llm := 1
    i18n := wI18n
    crew := some { memory := true, short_term_memory := 2, long_term_memory := 3, entity_memory := 4 }
    verbose := false
    tools := [wTool]
    max_iter := 15
    max_execution_time := some 60
    step_callback := some 5
    tools_handler := some 6
    function_calling_llm := some 8
    callbacks := some [9]
    system_template := none
    prompt_template := none
    response_template := none
    goal := "g"
    role := "r"
    backstory := "b"
    max_rpm := some 10
    rpm_controller := some 7 }

/-- A concrete environment for witnesses: the `crewai_tools` import succeeds
and `to_langchain` re-tags a crewai tool as a langchain tool. -/
def wEnv : Env :=
  { importCrewaiTools := none
    to_langchain := fun t =>
      match t with
      | Tool.crewai d => Except.ok (Tool.langchain d)
      | Tool.langchain d => Except.ok (Tool.langchain d)
    build_context_for_task := fun _ _ _ _ _ => "recalled facts"
    render_text_description := fun ts => String.intercalate "; " (ts.map Tool.name)
    fmt_task_with_context := fun tpl t c => tpl ++ t ++ c
    fmt_memory := fun tpl m => tpl ++ m
    invoke := fun _ inp _ _ => inp }

/-- A concrete task for witnesses. -/
def wTask : TaskV := { prompt := "write a summary" }

/-- The executor the witness agent's `create_agent_executor` builds. -/
def wExec : CrewAgentExecutor :=
  (create_agent_executor wEnv wAgent none).toOption.getD
    (executorOf wAgent none [] [])

/-- The result of `execute_task` on the witness agent. -/
def wRes : ExecResult :=
  (execute_task wEnv wAgent wTask none none).toOption.getD
    { output := "", executor := executorOf wAgent none [] [], input_prompt := "", rpm_events := [] }

theorem wExec_spec : create_agent_executor wEnv wAgent none = Except.ok wExec := rfl

theorem wRes_spec : execute_task wEnv wAgent wTask none none = Except.ok wRes := rfl

theorem parseLoop_no_crewai (env : Env) (ts : List Tool)
    (h : ∀ t ∈ ts, t.isCrewai = false) :
    ∀ acc : List Tool, parseLoop env acc ts = (acc ++ ts, none) := by
  induction ts with
  | nil => intro acc; simp [parseLoop]
  | cons t ts ih =>
    intro acc
    cases t with
    | crewai d =>
      exact absurd (h (Tool.crewai d) (List.mem_cons_self _ _)) (by simp [Tool.isCrewai])
    | langchain d =>
      simp only [parseLoop]
      rw [ih (fun t ht => h t (List.mem_cons_of_mem _ ht))]
      simp

theorem parse_tools_import_ok_no_crewai (env : Env) (ts : List Tool)
    (himp : env.importCrewaiTools = none) (h : ∀ t ∈ ts, t.isCrewai = false) :
    parse_tools env ts = Except.ok ts := by
  unfold parse_tools
  rw [himp, parseLoop_no_crewai env ts h []]
  simp

theorem parse_tools_mnfe (env : Env) (ts : List Tool)
    (himp : env.importCrewaiTools = some PyErr.moduleNotFound) :
    parse_tools env ts = Except.ok ts := by
  unfold parse_tools
  rw [himp]
  simp

/-- C1: `create_agent_executor` forwards the agent's configuration fields to
the external `CrewAgentExecutor` verbatim: the executor's `llm` is
`self.llm`, `max_iterations` is `self.max_iter`, `max_execution_time` is
`self.max_execution_time`, `step_callback` is `self.step_callback`,
`function_calling_llm` is `self.function_calling_llm`, `callbacks` is
`self.callbacks` and `tools_handler` is `self.tools_handler`, each
unchanged. -/
theorem c1_config_fields_forwarded_verbatim (env : Env) (a : LangchainAgent)
    (toolsArg : Option (List Tool)) (ex : CrewAgentExecutor)
    (h : create_agent_executor env a toolsArg = Except.ok ex) :
    ex.llm = a.llm ∧ ex.max_iterations = a.max_iter ∧
    ex.max_execution_time = a.max_execution_time ∧
    ex.step_callback = a.step_callback ∧
    ex.function_calling_llm = a.function_calling_llm ∧
    ex.callbacks = a.callbacks ∧
    ex.tools_handler = a.tools_handler := by
  obtain ⟨pt, sw, -, -, rfl⟩ := create_ok_elim env a toolsArg ex h
  exact ⟨rfl, rfl, rfl, rfl, rfl, rfl, rfl⟩

/-- C1 witness: the forwarding equations hold at the concrete agent `wAgent`
and environment `wEnv`. -/
theorem c1_witness :
    wExec.llm = wAgent.llm ∧ wExec.max_iterations = wAgent.max_iter ∧
    wExec.max_execution_time = wAgent.max_execution_time ∧
    wExec.step_callback = wAgent.step_callback ∧
    wExec.function_calling_llm = wAgent.function_calling_llm ∧
    wExec.callbacks = wAgent.callbacks ∧
    wExec.tools_handler = wAgent.tools_handler :=
  c1_config_fields_forwarded_verbatim wEnv wAgent none wExec rfl

/-- An agent whose own tool list holds a `crewai_tools` tool. -/
def cAgent : LangchainAgent := { wAgent with tools := [wCrewaiTool] }

/-- The executor built for `cAgent`. -/
def cExec : CrewAgentExecutor :=
  (create_agent_executor wEnv cAgent none).toOption.getD (executorOf cAgent none [] [])

/-- C2 counterexample: with `crewai_tools` importable, the `tools` kwarg the
module passes to `CrewAgentExecutor` is `self._parse_tools(tools)`, not the
given list itself: for the agent `cAgent`, whose resolved tool list is the
single CrewAI tool `wCrewaiTool`, the executor's `tools` is the
`.to_langchain()` conversion and differs from that list element for
element. -/
theorem c2_counterexample :
    create_agent_executor wEnv cAgent none = Except.ok cExec ∧
    pyOptListOr none cAgent.tools = [wCrewaiTool] ∧
    cExec.tools ≠ [wCrewaiTool] := by
  refine ⟨rfl, rfl, ?_⟩
  have hc : cExec.tools = [Tool.langchain { name := "scrape", tag := 1 }] := rfl
  rw [hc]
  decide

/-- C2 (amended): the tool list given to `create_agent_executor` (or the
agent's own tools when none or an empty list is given) is forwarded verbatim
as the executor's `original_tools`; the executor's `tools` kwarg is
`_parse_tools` of that list, which equals the list itself element for element
whenever the `crewai_tools` import fails with `ModuleNotFoundError` or no
element of the list is a CrewAI tool. -/
theorem c2_tools_forwarding (env : Env) (a : LangchainAgent)
    (toolsArg : Option (List Tool)) (ex : CrewAgentExecutor)
    (h : create_agent_executor env a toolsArg = Except.ok ex) :
    ex.original_tools = pyOptListOr toolsArg a.tools ∧
    parse_tools env (pyOptListOr toolsArg a.tools) = Except.ok ex.tools ∧
    (env.importCrewaiTools = none →
      (∀ t ∈ pyOptListOr toolsArg a.tools, t.isCrewai = false) →
      ex.tools = pyOptListOr toolsArg a.tools) ∧
    (env.importCrewaiTools = some PyErr.moduleNotFound →
      ex.tools = pyOptListOr toolsArg a.tools) := by
  obtain ⟨pt, sw, hp, -, rfl⟩ := create_ok_elim env a toolsArg ex h
  refine ⟨rfl, hp, ?_, ?_⟩
  · intro himp hnc
    have h2 := parse_tools_import_ok_no_crewai env (pyOptListOr toolsArg a.tools) himp hnc
    rw [hp] at h2
    simpa [executorOf] using h2
  · intro himp
    have h2 := parse_tools_mnfe env (pyOptListOr toolsArg a.tools) himp
    rw [hp] at h2
    simpa [executorOf] using h2

/-- C2 witness: the amended forwarding equations hold at the concrete agent
`wAgent`, whose single tool is not a CrewAI tool. -/
theorem c2_witness :
    wExec.original_tools = pyOptListOr none wAgent.tools ∧
    parse_tools wEnv (pyOptListOr none wAgent.tools) = Except.ok wExec.tools ∧
    (wEnv.importCrewaiTools = none →
      (∀ t ∈ pyOptListOr none wAgent.tools, t.isCrewai = false) →
      wExec.tools = pyOptListOr none wAgent.tools) ∧
    (wEnv.importCrewaiTools = some PyErr.moduleNotFound →
      wExec.tools = pyOptListOr none wAgent.tools) :=
  c2_tools_forwarding wEnv wAgent none wExec rfl

/-- An environment in which `from crewai_tools import BaseTool` raises
`ModuleNotFoundError`. -/
def mnfeEnv : Env := { wEnv with importCrewaiTools := some PyErr.moduleNotFound }

/-- C3 counterexample: the module does catch and suppress an exception. When
the `crewai_tools` import raises `ModuleNotFoundError`, `_parse_tools`
swallows it and returns the tools unchanged instead of letting it propagate
to the caller. -/
theorem c3_counterexample :
    mnfeEnv.importCrewaiTools = some PyErr.moduleNotFound ∧
    parse_tools mnfeEnv [wCrewaiTool] = Except.ok [wCrewaiTool] ∧
    parse_tools mnfeEnv [wCrewaiTool] ≠ Except.error PyErr.moduleNotFound := by
  refine ⟨rfl, rfl, ?_⟩
  intro hcon
  have hok : parse_tools mnfeEnv [wCrewaiTool] = Except.ok [wCrewaiTool] := rfl
  rw [hok] at hcon
  exact Except.noConfusion hcon

/-- C3 (amended): the module performs exactly one piece of error handling of
its own: `_parse_tools` catches `ModuleNotFoundError` and falls back to
appending the tools unchanged. Every other exception raised by a wrapped
collaborator or by an import during `_parse_tools`, `create_agent_executor`
or `execute_task` propagates unchanged to the caller. -/
theorem c3_exception_propagation (env : Env) :
    (∀ tools : List Tool, env.importCrewaiTools = some PyErr.moduleNotFound →
       parse_tools env tools = Except.ok tools) ∧
    (∀ (tools : List Tool) (e : PyErr), env.importCrewaiTools = some e →
       e ≠ PyErr.moduleNotFound → parse_tools env tools = Except.error e) ∧
    (∀ (t : Tool) (ts : List Tool) (e : PyErr), env.importCrewaiTools = none →
       t.isCrewai = true → env.to_langchain t = Except.error e →
       e ≠ PyErr.moduleNotFound → parse_tools env (t :: ts) = Except.error e) ∧
    (∀ (a : LangchainAgent) (toolsArg : Option (List Tool)) (e : PyErr),
       parse_tools env (pyOptListOr toolsArg a.tools) = Except.error e →
       create_agent_executor env a toolsArg = Except.error e) ∧
    (∀ (a : LangchainAgent) (task : TaskV) (context : Option String)
       (toolsArg : Option (List Tool)) (e : PyErr),
       parse_tools env (pyOptListOr toolsArg a.tools) = Except.error e →
       execute_task env a task context toolsArg = Except.error e) := by
  refine ⟨?_, ?_, ?_, ?_, ?_⟩
  · intro tools himp
    exact parse_tools_mnfe env tools himp
  · intro tools e himp hne
    unfold parse_tools
    rw [himp]
    simp [hne]
  · intro t ts e himp hc hlang hne
    cases t with
    | langchain d => simp [Tool.isCrewai] at hc
    | crewai d =>
      unfold parse_tools
      rw [himp]
      simp only [parseLoop]
      rw [hlang]
      simp [hne]
  · intro a toolsArg e hp
    exact create_error_elim env a toolsArg e hp
  · intro a task context toolsArg e hp
    simp only [execute_task]
    rw [pyListOr_nil, hp]
    rfl

/-- An environment in which the `crewai_tools` import raises an exception
other than `ModuleNotFoundError`. -/
def failEnv : Env := { wEnv with importCrewaiTools := some (PyErr.external 3) }

/-- C3 witness: a non-`ModuleNotFoundError` exception raised by the import
propagates unchanged out of `_parse_tools` in the concrete environment
`failEnv`. -/
theorem c3_witness :
    parse_tools failEnv [wTool] = Except.error (PyErr.external 3) :=
  (c3_exception_propagation failEnv).2.1 [wTool] (PyErr.external 3) rfl (by decide)

theorem pyOptListOr_resolved (toolsArg : Option (List Tool)) (d : List Tool) :
    pyOptListOr (some (pyOptListOr toolsArg d)) d = pyOptListOr toolsArg d := by
  cases toolsArg with
  | none => cases d <;> rfl
  | some xs =>
    cases xs with
    | nil => cases d <;> rfl
    | cons x xs => rfl

theorem create_error_stop (env : Env) (a : LangchainAgent)
    (toolsArg : Option (List Tool)) (pt : List Tool) (e : PyErr)
    (hp : parse_tools env (pyOptListOr toolsArg a.tools) = Except.ok pt)
    (hs : stop_words_of a.i18n a.response_template = Except.error e) :
    create_agent_executor env a toolsArg = Except.error e := by
  simp only [create_agent_executor]
  rw [hp]
  simp only [Bind.bind, Except.bind]
  rw [hs]

/-- The result record `execute_task` produces, given the results `pt` of
`_parse_tools` and `sw` of the stop-word computation. -/
def execResultOf (env : Env) (a : LangchainAgent) (task : TaskV)
    (context : Option String) (toolsArg : Option (List Tool))
    (pt : List Tool) (sw : List String) : ExecResult :=
  let task_prompt := memory_step env a task context (base_prompt env a task context)
  let ex1 : CrewAgentExecutor :=
    { executorOf a (some (pyOptListOr toolsArg a.tools)) pt sw with
      tools := pt
      task := some task
      tools_description := env.render_text_description pt
      tools_names := tools_names_of pt }
  { output := env.invoke ex1 task_prompt ex1.tools_names ex1.tools_description
    executor := ex1
    input_prompt := task_prompt
    rpm_events := if pyNatTruthy a.max_rpm then [RpmEvent.stopRpmCounter] else [] }

theorem execute_ok_elim (env : Env) (a : LangchainAgent) (task : TaskV)
    (context : Option String) (toolsArg : Option (List Tool)) (r : ExecResult)
    (h : execute_task env a task context toolsArg = Except.ok r) :
    ∃ pt sw,
      parse_tools env (pyOptListOr toolsArg a.tools) = Except.ok pt ∧
      stop_words_of a.i18n a.response_template = Except.ok sw ∧
      r = execResultOf env a task context toolsArg pt sw := by
  simp only [execute_task] at h
  rw [pyListOr_nil] at h
  cases hp : parse_tools env (pyOptListOr toolsArg a.tools) with
  | error e => rw [hp] at h; simp [Bind.bind, Except.bind] at h
  | ok pt =>
    rw [hp] at h
    simp only [Bind.bind, Except.bind] at h
    have hp2 : parse_tools env
        (pyOptListOr (some (pyOptListOr toolsArg a.tools)) a.tools) = Except.ok pt := by
      rw [pyOptListOr_resolved]
      exact hp
    cases hs : stop_words_of a.i18n a.response_template with
    | error e =>
      rw [create_error_stop env a (some (pyOptListOr toolsArg a.tools)) pt e hp2 hs] at h
      exact absurd h (by simp)
    | ok sw =>
      rw [create_eq_of_results env a (some (pyOptListOr toolsArg a.tools)) pt sw hp2 hs] at h
      simp only [Except.ok.injEq] at h
      exact ⟨pt, sw, rfl, rfl, h.symm⟩

/-- C4: the module contains no original algorithm: every constructor argument
of the executor is the agent's own field forwarded verbatim, a constant, or a
single application of an external collaborator to the agent's fields
(`_parse_tools` for the tools, `Prompts(...).task_execution().partial(...)`
for the prompt, `llm.bind` with the computed stop words, `CrewAgentParser`
for the output parsing stage), and the scratchpad closure wired into
`agent_args` behaves exactly as `format_log_to_str` with the default
prefixes. -/
theorem c4_no_original_algorithm (env : Env) (a : LangchainAgent)
    (toolsArg : Option (List Tool)) (ex : CrewAgentExecutor)
    (h : create_agent_executor env a toolsArg = Except.ok ex) :
    ex.llm = a.llm ∧ ex.i18n = a.i18n ∧ ex.crew = a.crew ∧ ex.crew_agent = a ∧
    parse_tools env (pyOptListOr toolsArg a.tools) = Except.ok ex.tools ∧
    ex.verbose = a.verbose ∧
    ex.original_tools = pyOptListOr toolsArg a.tools ∧
    ex.handle_parsing_errors = true ∧
    ex.max_iterations = a.max_iter ∧
    ex.max_execution_time = a.max_execution_time ∧
    ex.step_callback = a.step_callback ∧
    ex.tools_handler = a.tools_handler ∧
    ex.function_calling_llm = a.function_calling_llm ∧
    ex.callbacks = a.callbacks ∧
    ex.request_within_rpm_limit = Option.map RpmCallback.checkOrWait a.rpm_controller ∧
    ex.agent.runnable.prompt = PromptVal.partialApplied
      (PromptVal.taskExecution a.i18n (pyOptListOr toolsArg a.tools)
        a.system_template a.prompt_template a.response_template)
      a.goal a.role a.backstory ∧
    ex.agent.runnable.outputParser = ParserVal.crewAgentParser a ∧
    (∀ steps, ex.agent.runnable.args.scratchpad steps =
       format_log_to_str steps "Observation: " "") ∧
    BoundLLM.llmOf ex.agent.runnable.llm_bound = a.llm ∧
    stop_words_of a.i18n a.response_template =
      Except.ok (BoundLLM.stopOf ex.agent.runnable.llm_bound) := by
  obtain ⟨pt, sw, hp, hs, rfl⟩ := create_ok_elim env a toolsArg ex h
  exact ⟨rfl, rfl, rfl, rfl, hp, rfl, rfl, rfl, rfl, rfl, rfl, rfl, rfl, rfl, rfl, rfl, rfl,
    fun steps => rfl, rfl, hs⟩

/-- C4 witness: the configuration-mapping characterisation at the concrete
agent `wAgent` and environment `wEnv`. -/
theorem c4_witness :
    wExec.llm = wAgent.llm ∧ wExec.i18n = wAgent.i18n ∧ wExec.crew = wAgent.crew ∧
    wExec.crew_agent = wAgent ∧
    parse_tools wEnv (pyOptListOr none wAgent.tools) = Except.ok wExec.tools ∧
    wExec.verbose = wAgent.verbose ∧
    wExec.original_tools = pyOptListOr none wAgent.tools ∧
    wExec.handle_parsing_errors = true ∧
    wExec.max_iterations = wAgent.max_iter ∧
    wExec.max_execution_time = wAgent.max_execution_time ∧
    wExec.step_callback = wAgent.step_callback ∧
    wExec.tools_handler = wAgent.tools_handler ∧
    wExec.function_calling_llm = wAgent.function_calling_llm ∧
    wExec.callbacks = wAgent.callbacks ∧
    wExec.request_within_rpm_limit = Option.map RpmCallback.checkOrWait wAgent.rpm_controller ∧
    wExec.agent.runnable.prompt = PromptVal.partialApplied
      (PromptVal.taskExecution wAgent.i18n (pyOptListOr none wAgent.tools)
        wAgent.system_template wAgent.prompt_template wAgent.response_template)
      wAgent.goal wAgent.role wAgent.backstory ∧
    wExec.agent.runnable.outputParser = ParserVal.crewAgentParser wAgent ∧
    (∀ steps, wExec.agent.runnable.args.scratchpad steps =
       format_log_to_str steps "Observation: " "") ∧
    BoundLLM.llmOf wExec.agent.runnable.llm_bound = wAgent.llm ∧
    stop_words_of wAgent.i18n wAgent.response_template =
      Except.ok (BoundLLM.stopOf wExec.agent.runnable.llm_bound) :=
  c4_no_original_algorithm wEnv wAgent none wExec rfl

/-- C5: rate limiting is delegated to the external controller: when
`_rpm_controller` is set the executor's `request_within_rpm_limit` kwarg is
exactly the controller's `check_or_wait` bound method, and when it is unset
no such kwarg is passed; and the only rate-limit action `execute_task` itself
performs is one `stop_rpm_counter` call at the end, exactly when `max_rpm`
is truthy. -/
theorem c5_rpm_delegation (env : Env) (a : LangchainAgent) :
    (∀ (toolsArg : Option (List Tool)) (ex : CrewAgentExecutor),
       create_agent_executor env a toolsArg = Except.ok ex →
       ex.request_within_rpm_limit = Option.map RpmCallback.checkOrWait a.rpm_controller) ∧
    (∀ (task : TaskV) (context : Option String) (toolsArg : Option (List Tool))
       (r : ExecResult),
       execute_task env a task context toolsArg = Except.ok r →
       r.rpm_events = if pyNatTruthy a.max_rpm then [RpmEvent.stopRpmCounter] else []) := by
  constructor
  · intro toolsArg ex h
    obtain ⟨pt, sw, -, -, rfl⟩ := create_ok_elim env a toolsArg ex h
    rfl
  · intro task context toolsArg r h
    obtain ⟨pt, sw, -, -, rfl⟩ := execute_ok_elim env a task context toolsArg r h
    rfl

/-- C5 witness: the rate-limit wiring at the concrete agent `wAgent`, whose
`_rpm_controller` and `max_rpm` are both set. -/
theorem c5_witness :
    wExec.request_within_rpm_limit = Option.map RpmCallback.checkOrWait wAgent.rpm_controller ∧
    wRes.rpm_events = if pyNatTruthy wAgent.max_rpm then [RpmEvent.stopRpmCounter] else [] :=
  ⟨(c5_rpm_delegation wEnv wAgent).1 none wExec rfl,
   (c5_rpm_delegation wEnv wAgent).2 wTask none none wRes rfl⟩

/-- C6: prompt construction is delegated to the `Prompts` collaborator: the
prompt stage wired into the executor's runnable is exactly
`Prompts(i18n, tools, system_template, prompt_template,
response_template).task_execution()` partially applied with the agent's
`goal`, `role` and `backstory`, with no other transformation; `tools` is the
resolved tool list (`tools or self.tools`). -/
theorem c6_prompt_delegation (env : Env) (a : LangchainAgent)
    (toolsArg : Option (List Tool)) (ex : CrewAgentExecutor)
    (h : create_agent_executor env a toolsArg = Except.ok ex) :
    ex.agent.runnable.prompt = PromptVal.partialApplied
      (PromptVal.taskExecution a.i18n (pyOptListOr toolsArg a.tools)
        a.system_template a.prompt_template a.response_template)
      a.goal a.role a.backstory := by
  obtain ⟨pt, sw, -, -, rfl⟩ := create_ok_elim env a toolsArg ex h
  rfl

/-- C6 witness: the prompt wiring at the concrete agent `wAgent`. -/
theorem c6_witness :
    wExec.agent.runnable.prompt = PromptVal.partialApplied
      (PromptVal.taskExecution wAgent.i18n (pyOptListOr none wAgent.tools)
        wAgent.system_template wAgent.prompt_template wAgent.response_template)
      wAgent.goal wAgent.role wAgent.backstory :=
  c6_prompt_delegation wEnv wAgent none wExec rfl

/-- C7: memory retrieval is delegated to `ContextualMemory`: when the agent
has no crew or crew memory is disabled the memory step leaves the task prompt
unchanged; when crew memory is enabled, the text formatted into the appended
`memory` slice is exactly the output of `build_context_for_task` on the
crew's three memory stores, and it is appended exactly when that output is
non-blank after stripping; and the prompt `execute_task` hands to the
executor is the memory step applied to the base prompt. -/
theorem c7_memory_delegation (env : Env) (a : LangchainAgent) (task : TaskV)
    (context : Option String) (task_prompt : String) :
    (a.crew = none → memory_step env a task context task_prompt = task_prompt) ∧
    (∀ c, a.crew = some c → c.memory = false →
       memory_step env a task context task_prompt = task_prompt) ∧
    (∀ c, a.crew = some c → c.memory = true →
       memory_step env a task context task_prompt =
         (if pyStrip (env.build_context_for_task c.short_term_memory
               c.long_term_memory c.entity_memory task context) ≠ "" then
            task_prompt ++ env.fmt_memory (a.i18n.slice "memory")
              (env.build_context_for_task c.short_term_memory c.long_term_memory
                c.entity_memory task context)
          else task_prompt)) ∧
    (∀ (toolsArg : Option (List Tool)) (r : ExecResult),
       execute_task env a task context toolsArg = Except.ok r →
       r.input_prompt = memory_step env a task context (base_prompt env a task context)) := by
  refine ⟨?_, ?_, ?_, ?_⟩
  · intro hc
    simp [memory_step, hc]
  · intro c hc hm
    simp [memory_step, hc, hm]
  · intro c hc hm
    simp [memory_step, hc, hm]
  · intro toolsArg r h
    obtain ⟨pt, sw, -, -, rfl⟩ := execute_ok_elim env a task context toolsArg r h
    rfl

/-- C7 witness: the memory step at the concrete agent `wAgent`, whose crew
has memory enabled, and the prompt actually passed to `invoke` by
`execute_task` on the concrete task `wTask`. -/
theorem c7_witness :
    memory_step wEnv wAgent wTask none "p" =
      (if pyStrip (wEnv.build_context_for_task 2 3 4 wTask none) ≠ "" then
         "p" ++ wEnv.fmt_memory (wAgent.i18n.slice "memory")
           (wEnv.build_context_for_task 2 3 4 wTask none)
       else "p") ∧
    wRes.input_prompt = memory_step wEnv wAgent wTask none (base_prompt wEnv wAgent wTask none) :=
  ⟨(c7_memory_delegation wEnv wAgent wTask none "p").2.2.1
      { memory := true, short_term_memory := 2, long_term_memory := 3, entity_memory := 4 }
      rfl rfl,
   (c7_memory_delegation wEnv wAgent wTask none "p").2.2.2 none wRes rfl⟩

theorem flts_foldl_shift ( observation_prefix llm_prefix : String)
    (xs : List (AgentAction × String)) (s0 : String) :
    List.foldl
      (fun thoughts step =>
        thoughts ++ step.1.log ++ "\n" ++ observation_prefix ++ step.2 ++ "\n" ++ llm_prefix)
      s0 xs =
    s0 ++ List.foldl
      (fun thoughts step =>
        thoughts ++ step.1.log ++ "\n" ++ observation_prefix ++ step.2 ++ "\n" ++ llm_prefix)
      "" xs := by
  induction xs generalizing s0 with
  | nil => simp [String.append_empty]
  | cons x xs ih =>
    simp only [List.foldl_cons]
    rw [ih, ih ("" ++ x.1.log ++ "\n" ++ observation_prefix ++ x.2 ++ "\n" ++ llm_prefix)]
    simp [String.append_assoc, String.empty_append]

/-- C8: `format_log_to_str` is a monoid homomorphism from lists of
(action, observation) pairs to strings under concatenation: it maps `++` of
step lists to `++` of strings and the empty list to `""`; and each pair
contributes `action.log`, a newline, the observation prefix, the
observation, a newline and the llm prefix, in list order. -/
theorem c8_format_log_monoid_hom :
    (∀ ( observation_prefix llm_prefix : String) (xs ys : List (AgentAction × String)),
       format_log_to_str (xs ++ ys) observation_prefix llm_prefix =
         format_log_to_str xs observation_prefix llm_prefix ++
           format_log_to_str ys observation_prefix llm_prefix) ∧
    (∀ ( observation_prefix llm_prefix : String),
       format_log_to_str [] observation_prefix llm_prefix = "") ∧
    (∀ ( observation_prefix llm_prefix : String) (action : AgentAction)
       (observation : String),
       format_log_to_str [(action, observation)] observation_prefix llm_prefix =
         action.log ++ "\n" ++ observation_prefix ++ observation ++ "\n" ++ llm_prefix) := by
  refine ⟨?_, ?_, ?_⟩
  · intro op lp xs ys
    unfold format_log_to_str
    rw [List.foldl_append]
    rw [flts_foldl_shift]
  · intro op lp
    rfl
  · intro op lp action observation
    unfold format_log_to_str
    simp [String.empty_append]

/-- An agent whose `response_template` is set to the empty string. -/
def rtEmptyAgent : LangchainAgent := { wAgent with response_template := some "" }

/-- An agent whose `response_template` holds the `"{{ .Response }}"` marker
twice: `"A{{ .Response }}B{{ .Response }}C"`. -/
def rtTwoAgent : LangchainAgent :=
  { wAgent with
    response_template := some "A\x7b\x7b .Response \x7d\x7dB\x7b\x7b .Response \x7d\x7dC" }

/-- The executor built for `rtTwoAgent`. -/
def rtTwoExec : CrewAgentExecutor :=
  (create_agent_executor wEnv rtTwoAgent none).toOption.getD (executorOf rtTwoAgent none [] [])

/-- C9 counterexample: two concrete inputs refute the claim as stated.
First, `rtEmptyAgent.response_template` is set (to `""`) and does not contain
the marker, yet `create_agent_executor` succeeds instead of failing, because
`if self.response_template:` is falsy for the empty string. Second, for
`rtTwoAgent`, whose template holds the marker twice, the second stop word is
`"B"` — the stripped text between the two occurrences — and not the stripped
text after the first occurrence, `"B{{ .Response }}C"`. -/
theorem c9_counterexample :
    rtEmptyAgent.response_template = some "" ∧
    (pySplit "" respMarker).length = 1 ∧
    create_agent_executor wEnv rtEmptyAgent none ≠ Except.error PyErr.indexError ∧
    create_agent_executor wEnv rtTwoAgent none = Except.ok rtTwoExec ∧
    BoundLLM.stopOf rtTwoExec.agent.runnable.llm_bound = ["observation", "B"] ∧
    "B" ≠ pyStrip "B\x7b\x7b .Response \x7d\x7dC" := by
  refine ⟨rfl, by decide, ?_, rfl, rfl, by decide⟩
  intro hcon
  have hok : create_agent_executor wEnv rtEmptyAgent none =
      Except.ok (executorOf rtEmptyAgent none [wTool] ["observation"]) :=
    create_eq_of_results wEnv rtEmptyAgent none [wTool] ["observation"] rfl rfl
  rw [hok] at hcon
  exact Except.noConfusion hcon

/-- C9 (amended): for every agent whose `response_template` is set to a
non-empty string, if the split on `"{{ .Response }}"` has a single field
(the marker does not occur) then `create_agent_executor` fails with the
out-of-range indexing error; and whenever the split has a second field, the
stop-word list is the i18n observation slice followed by that second field
stripped — the text between the first and second occurrences of the marker,
which equals the text after the first occurrence when the marker occurs
exactly once. -/
theorem c9_stop_words (env : Env) (a : LangchainAgent)
    (toolsArg : Option (List Tool)) (rt : String) (pt : List Tool)
    (hrt : a.response_template = some rt) (hne : rt ≠ "")
    (hp : parse_tools env (pyOptListOr toolsArg a.tools) = Except.ok pt) :
    ((pySplit rt respMarker).length = 1 →
       create_agent_executor env a toolsArg = Except.error PyErr.indexError) ∧
    (∀ s, (pySplit rt respMarker).get? 1 = some s →
       ∀ ex, create_agent_executor env a toolsArg = Except.ok ex →
         BoundLLM.stopOf ex.agent.runnable.llm_bound =
           [a.i18n.slice "observation", pyStrip s]) := by
  constructor
  · intro hlen
    have hn : (pySplit rt respMarker).get? 1 = none := by
      rw [List.get?_eq_none]
      omega
    have hs : stop_words_of a.i18n a.response_template = Except.error PyErr.indexError := by
      unfold stop_words_of
      rw [hrt]
      rw [List.get?_eq_getElem?] at hn
      simp [pyStrTruthy, hne, hn]
    exact create_error_stop env a toolsArg pt PyErr.indexError hp hs
  · intro s hget ex hex
    obtain ⟨pt2, sw, hp2, hs2, rfl⟩ := create_ok_elim env a toolsArg ex hex
    have hs3 : stop_words_of a.i18n a.response_template =
        Except.ok ([a.i18n.slice "observation"] ++ [pyStrip s]) := by
      unfold stop_words_of
      rw [hrt]
      rw [List.get?_eq_getElem?] at hget
      simp [pyStrTruthy, hne, hget]
    rw [hs3] at hs2
    simp only [Except.ok.injEq] at hs2
    rw [← hs2]
    rfl

/-- An agent whose `response_template` is a non-empty string without the
marker. -/
def rtNoMarkerAgent : LangchainAgent := { wAgent with response_template := some "XYZ" }

/-- C9 witness: `create_agent_executor` fails with the indexing error at the
concrete agent `rtNoMarkerAgent`. -/
theorem c9_witness :
    create_agent_executor wEnv rtNoMarkerAgent none = Except.error PyErr.indexError :=
  (c9_stop_words wEnv rtNoMarkerAgent none "XYZ" [wTool] rfl (by decide) rfl).1 (by decide)

/-- C10: calling `execute_task` with an empty tool list behaves exactly as if
no tools argument were given — `tools or self.tools` makes `[]` fall back to
the agent's own tools for parsing, executor construction, the tools
description and the tool names — and likewise for `create_agent_executor`;
in particular the resolved tool set is `self.tools`, never the empty list,
when `self.tools` is non-empty. -/
theorem c10_empty_tools_list (env : Env) (a : LangchainAgent) (task : TaskV)
    (context : Option String) :
    execute_task env a task context (some []) = execute_task env a task context none ∧
    create_agent_executor env a (some []) = create_agent_executor env a none ∧
    pyOptListOr (some []) a.tools = a.tools := by
  exact ⟨rfl, rfl, rfl⟩
